import Mathlib

/-!
Verification development for the simulation core of "The Signal", a
browser-based first-person survival-horror game.  The JavaScript source is
shallowly embedded: JS numbers are modelled as exact rationals (`ℚ`), object
state as Lean structures, mutation as explicit state passing, and a thrown
`TypeError` as `Except.error`.  `performance.now()` readings are passed in as
explicit `now` arguments.  Rendering, meshes, audio playback (all the source's
sound methods are `console.log` placeholders) and camera angles (which involve
`Math.PI` and mouse input) carry no simulation state relevant to the properties
below and are outside the model; each definition's doc comment notes the
source method it embeds.
-/

namespace TheSignal

/-- THREE.Vector3 with exact rational coordinates. -/
structure Vec3 where
  x : ℚ
  y : ℚ
  z : ℚ
deriving DecidableEq, Repr

/-- Squared Euclidean distance between two vectors. -/
def Vec3.distSq (a b : Vec3) : ℚ :=
  (a.x - b.x) * (a.x - b.x) + (a.y - b.y) * (a.y - b.y) + (a.z - b.z) * (a.z - b.z)

/-- Model of `Math.sqrt`: `Rat.sqrt` agrees with the real square root on every
rational square, and every distance appearing in the theorems below is an
exact rational (`Rat.sqrt_eq`). -/
def jsSqrt (q : ℚ) : ℚ := Rat.sqrt q

/-- Embeds `THREE.Vector3.distanceTo`: Euclidean distance. -/
def Vec3.distanceTo (a b : Vec3) : ℚ := jsSqrt (Vec3.distSq a b)

/-! ## Simulation tick orchestrator (`GameEngine`, src/core/StoryManager.js) -/

/-- The three game endings passed to `GameEngine.gameOver(reason)`. -/
inductive Ending
  | death
  | completion
  | insanity
deriving DecidableEq, Repr

/-- The inputs read by `GameEngine.checkGameState`: `this.player.isDead`,
`this.storyManager.isStoryComplete()` and `this.player.getMadnessLevel()`. -/
structure GameSnapshot where
  isDead : Bool
  storyComplete : Bool
  madnessLevel : ℚ
deriving DecidableEq, Repr

/-- Embeds `GameEngine.checkGameState`: a sequence of early-returning checks; each
satisfied check calls `gameOver` with its ending and returns, skipping the
rest.  Source order: dead, then story complete, then madness `>= 1.0`. -/
def checkGameState (s : GameSnapshot) : Option Ending :=
  if s.isDead then some Ending.death
  else if s.storyComplete then some Ending.completion
  else if 1 ≤ s.madnessLevel then some Ending.insanity
  else none

/-- First-match evaluation of an ordered list of (condition, ending) pairs:
the ending of the first satisfied condition, ignoring the rest. -/
def firstSatisfied : List (Bool × Ending) → Option Ending
  | [] => none
  | (c, e) :: rest => if c then some e else firstSatisfied rest

/-- The distinguishable side-effecting calls made during one frame of
`GameEngine.update` (including those nested inside `EnemyManager.update`). -/
inductive Phase
  | perfMetrics
  | playerUpdate
  | soundDecay
  | enemyAIUpdate
  | enemySpawning
  | worldUpdate
  | physicsStep
  | storyUpdate
  | effectsUpdate
  | lightingUpdate
  | postProcessingUpdate
  | gameStateCheck
deriving DecidableEq, BEq, Repr

/-- Embeds `EnemyManager.update(deltaTime, player)` at phase granularity: it first
prunes expired sound events (`updateSoundEvents`), then updates each active
enemy's AI, then runs proximity spawning (`updateSpawning`). -/
def EnemyManager.updatePhaseList : List Phase :=
  [Phase.soundDecay, Phase.enemyAIUpdate, Phase.enemySpawning]

/-- Embeds `GameEngine.update(deltaTime)` at phase granularity: early-out when not
playing or paused, otherwise the subsystem calls in source order —
performance metrics, `player.update`, `enemyManager.update`,
`worldManager.update`, `physicsManager.update`, `storyManager.update`,
`effectManager.update`, lighting, post-processing, `checkGameState`. -/
def GameEngine.updatePhaseList (isPlaying isPaused : Bool) : List Phase :=
  if !isPlaying || isPaused then []
  else
    [Phase.perfMetrics, Phase.playerUpdate] ++ EnemyManager.updatePhaseList ++
      [Phase.worldUpdate, Phase.physicsStep, Phase.storyUpdate, Phase.effectsUpdate,
       Phase.lightingUpdate, Phase.postProcessingUpdate, Phase.gameStateCheck]

/-! ## Physics body registry (`PhysicsManager`, src/core/PhysicsManager.js) -/

/-- A JavaScript number: a finite value, `NaN`, or a signed infinity. -/
inductive JSNum
  | num (q : ℚ)
  | nan
  | posInf
  | negInf
deriving DecidableEq, Repr

/-- Embeds `Number.isFinite`. -/
def JSNum.isFinite : JSNum → Bool
  | .num _ => true
  | _ => false

/-- The argument triple of a `CANNON.World.step(fixedTimeStep,
timeSinceLastCalled, maxSubSteps)` call. -/
structure WorldStepArgs where
  fixedTimeStep : ℚ
  timeSinceLastCalled : JSNum
  maxSubSteps : ℕ
deriving DecidableEq, Repr

/-- Embeds `PhysicsManager.update(deltaTime)`: the body is exactly
`this.world.step(this.timeStep, deltaTime, this.maxSubSteps)` followed by mesh
syncing; the delta is forwarded to the physics world as received, with
`timeStep = 1/60` and `maxSubSteps = 3` from the constructor.  This function
returns the argument triple handed to the world. -/
def PhysicsManager.update (deltaTime : JSNum) : WorldStepArgs :=
  { fixedTimeStep := 1 / 60, timeSinceLastCalled := deltaTime, maxSubSteps := 3 }

/-! ## Player controller (`Player`, src/unnamed/part_005) -/

/-- Embeds `this.keys`: the per-key input latches, set by DOM events and cleared by
some handlers (flashlight, interact) as a debounce. -/
structure Keys where
  forward : Bool
  backward : Bool
  left : Bool
  right : Bool
  jump : Bool
  crouch : Bool
  sprint : Bool
  shoot : Bool
  reload : Bool
  interact : Bool
  flashlight : Bool
deriving DecidableEq, Repr

/-- Embeds `this.weapon`: the pistol's sub-state.  Ammo counts are integer-valued in
every reachable state, modelled as `ℤ`. -/
structure Weapon where
  damage : ℚ
  fireRate : ℚ
  lastFired : ℚ
  recoil : ℚ
  ammo : ℤ
  maxAmmo : ℤ
  clipSize : ℤ
  currentClip : ℤ
  reloadTime : ℚ
  isReloading : Bool
  reloadStartTime : ℚ
deriving DecidableEq, Repr

/-- Player state.  The horizontal position/velocity components and the camera
angles are driven by `normalize`, `applyEuler` and `Math.PI` (irrational
rotations) and no claim concerns them; they are outside the model.  The
vertical axis (`posY`, `velY`), which drives grounding and jumping, is exact
and kept. -/
structure PlayerS where
  health : ℚ
  maxHealth : ℚ
  isDead : Bool
  speed : ℚ
  sprintSpeed : ℚ
  crouchSpeed : ℚ
  currentSpeed : ℚ
  isSprinting : Bool
  isCrouching : Bool
  gravity : ℚ
  jumpForce : ℚ
  isGrounded : Bool
  canJump : Bool
  velY : ℚ
  posY : ℚ
  weapon : Weapon
  flashlightBattery : ℚ
  maxBattery : ℚ
  batteryDrainRate : ℚ
  flashlightOn : Bool
  madnessLevel : ℚ
  maxMadness : ℚ
  madnessIncreaseRate : ℚ
  madnessDecreaseRate : ℚ
  keys : Keys
  interactionCooldown : ℚ
  lastFootstepTime : ℚ
  footstepInterval : ℚ
  worldSize : ℚ

/-- All keys up. -/
def Keys.none : Keys :=
  { forward := false, backward := false, left := false, right := false,
    jump := false, crouch := false, sprint := false, shoot := false,
    reload := false, interact := false, flashlight := false }

/-- The `Player` constructor state (with `config.worldSize = 1000` from
main.js `CONFIG`).  `0.3 = 3/10`, `0.05 = 1/20`, `2.5 = 5/2`,
`0.01 = 1/100`, `0.005 = 1/200`. -/
def initialPlayer : PlayerS :=
  { health := 100, maxHealth := 100, isDead := false,
    speed := 5, sprintSpeed := 8, crouchSpeed := 5/2, currentSpeed := 5,
    isSprinting := false, isCrouching := false,
    gravity := -30, jumpForce := 12, isGrounded := true, canJump := true,
    velY := 0, posY := 2,
    weapon :=
      { damage := 25, fireRate := 3/10, lastFired := 0, recoil := 1/20,
        ammo := 30, maxAmmo := 30, clipSize := 10, currentClip := 10,
        reloadTime := 2, isReloading := false, reloadStartTime := 0 },
    flashlightBattery := 100, maxBattery := 100, batteryDrainRate := 2,
    flashlightOn := true,
    madnessLevel := 0, maxMadness := 1,
    madnessIncreaseRate := 1/100, madnessDecreaseRate := 1/200,
    keys := Keys.none, interactionCooldown := 0,
    lastFootstepTime := 0, footstepInterval := 3/10,
    worldSize := 1000 }

/-- Embeds `Player.handleMovement(deltaTime)`: speed/stance resolution and the jump
latch.  The sprint branch is evaluated first and the crouch branch after it,
so when both keys are held the crouch assignment overwrites `currentSpeed`
last.  The horizontal force application acts on out-of-model components. -/
def Player.handleMovement (_deltaTime : ℚ) (p : PlayerS) : PlayerS :=
  let p := { p with currentSpeed := p.speed }
  let p :=
    if p.keys.sprint && p.isGrounded then
      { p with currentSpeed := p.sprintSpeed, isSprinting := true }
    else
      { p with isSprinting := false }
  let p :=
    if p.keys.crouch then
      { p with currentSpeed := p.crouchSpeed, isCrouching := true }
    else
      { p with isCrouching := false }
  let p :=
    if p.keys.jump && p.isGrounded && p.canJump then
      { p with velY := p.jumpForce, isGrounded := false, canJump := false }
    else p
  if !p.keys.jump then { p with canJump := true } else p

/-- Embeds `Player.handleShooting(deltaTime)` with `now = performance.now()/1000`.
With a loaded clip the shot fires (`lastFired := now`, clip decremented,
recoil applied to the out-of-model pitch); with an empty clip only
`playEmptyWeaponSound` runs (a `console.log` placeholder), touching nothing. -/
def Player.handleShooting (now : ℚ) (p : PlayerS) : PlayerS :=
  if p.weapon.isReloading then p
  else if p.keys.shoot = true ∧ p.weapon.fireRate ≤ now - p.weapon.lastFired then
    if 0 < p.weapon.currentClip then
      { p with weapon :=
          { p.weapon with lastFired := now, currentClip := p.weapon.currentClip - 1 } }
    else p
  else p

/-- Embeds `Player.startReloading` (sets the flag and timer only). -/
def Player.startReloading (now : ℚ) (p : PlayerS) : PlayerS :=
  { p with weapon := { p.weapon with isReloading := true, reloadStartTime := now } }

/-- Embeds `Player.finishReloading`: moves `min(clipSize - currentClip, ammo)` rounds
from reserve to clip and clears the flag. -/
def Player.finishReloading (p : PlayerS) : PlayerS :=
  let ammoNeeded := p.weapon.clipSize - p.weapon.currentClip
  let ammoToLoad := min ammoNeeded p.weapon.ammo
  { p with weapon :=
      { p.weapon with
        currentClip := p.weapon.currentClip + ammoToLoad,
        ammo := p.weapon.ammo - ammoToLoad,
        isReloading := false } }

/-- Embeds `Player.handleReloading(deltaTime)` with `now = performance.now()/1000`:
while reloading, only the timer is checked (the reload key is ignored);
otherwise the reload key starts a reload when the clip is not full and
reserve ammo remains. -/
def Player.handleReloading (now : ℚ) (p : PlayerS) : PlayerS :=
  if p.weapon.isReloading then
    if p.weapon.reloadTime ≤ now - p.weapon.reloadStartTime then
      Player.finishReloading p
    else p
  else if p.keys.reload = true ∧ p.weapon.currentClip < p.weapon.clipSize ∧
      0 < p.weapon.ammo then
    Player.startReloading now p
  else p

/-- Embeds `Player.handleFlashlight(deltaTime)`: edge-triggered toggle that clears
its own key. -/
def Player.handleFlashlight (p : PlayerS) : PlayerS :=
  if p.keys.flashlight then
    { p with flashlightOn := !p.flashlightOn,
             keys := { p.keys with flashlight := false } }
  else p

/-- Embeds `Player.handleInteractions(deltaTime)`: cooldown countdown and the
interact latch (`performInteraction` only raycasts, no state). -/
def Player.handleInteractions (deltaTime : ℚ) (p : PlayerS) : PlayerS :=
  let p := { p with interactionCooldown := p.interactionCooldown - deltaTime }
  if p.keys.interact = true ∧ p.interactionCooldown ≤ 0 then
    { p with interactionCooldown := 1/2, keys := { p.keys with interact := false } }
  else p

/-- Embeds `Player.getDistanceToSignal`: a constant placeholder `50` in the source. -/
def Player.getDistanceToSignal (_p : PlayerS) : ℚ := 50

/-- Embeds `Player.updateMadness(deltaTime)`: accumulation from signal proximity
(`0.02` weight), darkness (`0.01`) and sprinting (`0.005`), minus the decay
rate, scaled by `deltaTime`, clamped into `[0, maxMadness]`. -/
def Player.updateMadness (deltaTime : ℚ) (p : PlayerS) : PlayerS :=
  let distanceToSignal := Player.getDistanceToSignal p
  let proximity : ℚ :=
    if distanceToSignal < 20 then (20 - distanceToSignal) / 20 * (1/50) else 0
  let darkness : ℚ :=
    if p.flashlightOn = false ∨ p.flashlightBattery < 10 then 1/100 else 0
  let exhaustion : ℚ := if p.isSprinting then 1/200 else 0
  let madnessIncrease := proximity + darkness + exhaustion
  let m := p.madnessLevel + (madnessIncrease - p.madnessDecreaseRate) * deltaTime
  { p with madnessLevel := max 0 (min p.maxMadness m) }

/-- Embeds `Player.updateBattery(deltaTime)`: linear drain while the flashlight is
on, floored at `0`. -/
def Player.updateBattery (deltaTime : ℚ) (p : PlayerS) : PlayerS :=
  if p.flashlightOn then
    let b := max 0 (p.flashlightBattery - p.batteryDrainRate * deltaTime)
    { p with flashlightBattery := b }
  else p

/-- Embeds `Player.updatePhysics(deltaTime)` restricted to the vertical axis:
gravity while airborne, Euler integration, ground collision at `y = 2`.
The `x`/`z` friction acts on out-of-model components. -/
def Player.updatePhysics (deltaTime : ℚ) (p : PlayerS) : PlayerS :=
  let p := if !p.isGrounded then { p with velY := p.velY + p.gravity * deltaTime } else p
  let p := { p with posY := p.posY + p.velY * deltaTime }
  if p.posY ≤ 2 then { p with posY := 2, velY := 0, isGrounded := true }
  else { p with isGrounded := false }

/-- Embeds `this.direction.length() > 0`: the key-derived direction vector is nonzero
exactly when the forward/backward or left/right pairs disagree (equal opposed
keys cancel to `0`). -/
def Player.isMoving (p : PlayerS) : Bool :=
  (p.keys.forward != p.keys.backward) || (p.keys.left != p.keys.right)

/-- Embeds `Player.updateAudioFeedback(deltaTime)`: footstep timer (the played sound
is a `console.log` placeholder). -/
def Player.updateAudioFeedback (deltaTime : ℚ) (p : PlayerS) : PlayerS :=
  if p.isGrounded && Player.isMoving p then
    let t := p.lastFootstepTime + deltaTime
    if p.footstepInterval ≤ t then { p with lastFootstepTime := 0 }
    else { p with lastFootstepTime := t }
  else p

/-- Embeds `Player.clampToWorldBounds` on the modelled vertical axis: the world box
spans `y ∈ [-10, worldSize]`. -/
def Player.clampToWorldBounds (p : PlayerS) : PlayerS :=
  { p with posY := max (-10) (min p.worldSize p.posY) }

/-- Embeds `Player.update(deltaTime)`: early-out when dead, then the handler chain in
source order. -/
def Player.update (now deltaTime : ℚ) (p : PlayerS) : PlayerS :=
  if p.isDead then p
  else
    let p := Player.handleMovement deltaTime p
    let p := Player.handleShooting now p
    let p := Player.handleReloading now p
    let p := Player.handleFlashlight p
    let p := Player.handleInteractions deltaTime p
    let p := Player.updateMadness deltaTime p
    let p := Player.updateBattery deltaTime p
    let p := Player.updatePhysics deltaTime p
    let p := Player.updateAudioFeedback deltaTime p
    Player.clampToWorldBounds p

/-- Embeds `Player.takeDamage(amount)`: subtract and floor at `0`, set the terminal
`isDead` flag at `0`, and bump madness by `0.1` capped at `maxMadness`. -/
def Player.takeDamage (amount : ℚ) (p : PlayerS) : PlayerS :=
  let p := { p with health := max 0 (p.health - amount) }
  let p := if p.health ≤ 0 then { p with isDead := true } else p
  { p with madnessLevel := min p.maxMadness (p.madnessLevel + 1/10) }

/-- Embeds `Player.heal(amount)`: add and cap at `maxHealth`. -/
def Player.heal (amount : ℚ) (p : PlayerS) : PlayerS :=
  { p with health := min p.maxHealth (p.health + amount) }

/-- One externally visible event acting on the player: a simulation tick with
the key state the DOM listeners have accumulated, or a combat call made by an
enemy attack (`takeDamage`) or an item (`heal`). -/
inductive PlayerEvent
  | tick (now deltaTime : ℚ) (keys : Keys)
  | damage (amount : ℚ)
  | heal (amount : ℚ)

/-- Apply one event. -/
def Player.step (p : PlayerS) : PlayerEvent → PlayerS
  | .tick now deltaTime keys => Player.update now deltaTime { p with keys := keys }
  | .damage amount => Player.takeDamage amount p
  | .heal amount => Player.heal amount p

/-- Run a sequence of events from the constructor state. -/
def Player.run (events : List PlayerEvent) : PlayerS :=
  events.foldl Player.step initialPlayer

/-- Validity of an event as produced by the game: frame deltas are
nonnegative, enemy attack damages (15/25/20) and heal amounts are
nonnegative. -/
def PlayerEvent.valid : PlayerEvent → Prop
  | .tick _ deltaTime _ => 0 ≤ deltaTime
  | .damage amount => 0 ≤ amount
  | .heal amount => 0 ≤ amount

instance : DecidablePred PlayerEvent.valid := fun ev =>
  match ev with
  | .tick _ deltaTime _ => inferInstanceAs (Decidable (0 ≤ deltaTime))
  | .damage amount => inferInstanceAs (Decidable (0 ≤ amount))
  | .heal amount => inferInstanceAs (Decidable (0 ≤ amount))

/-- The invariant claimed for every tick: clip within clip size, health,
madness and battery within their ranges. -/
def PlayerInv (p : PlayerS) : Prop :=
  p.weapon.currentClip ≤ p.weapon.clipSize ∧
  0 ≤ p.health ∧ p.health ≤ p.maxHealth ∧
  0 ≤ p.madnessLevel ∧ p.madnessLevel ≤ 1 ∧
  0 ≤ p.flashlightBattery ∧ p.flashlightBattery ≤ 100

/-- The projection of a player state onto the resource meters that the
invariants range over. -/
structure Meters where
  clip : ℤ
  clipSize : ℤ
  ammo : ℤ
  health : ℚ
  maxHealth : ℚ
  madness : ℚ
  maxMadness : ℚ
  battery : ℚ
  drainRate : ℚ
deriving DecidableEq, Repr

/-- Extract the meters from a player state. -/
def PlayerS.meters (p : PlayerS) : Meters :=
  { clip := p.weapon.currentClip, clipSize := p.weapon.clipSize,
    ammo := p.weapon.ammo, health := p.health, maxHealth := p.maxHealth,
    madness := p.madnessLevel, maxMadness := p.maxMadness,
    battery := p.flashlightBattery, drainRate := p.batteryDrainRate }

/-- The strengthened inductive invariant: the claimed meter bounds together
with the constant configuration values they depend on. -/
def MetersInv (v : Meters) : Prop :=
  0 ≤ v.clip ∧ v.clip ≤ v.clipSize ∧ 0 ≤ v.ammo ∧
  0 ≤ v.health ∧ v.health ≤ v.maxHealth ∧ v.maxHealth = 100 ∧
  0 ≤ v.madness ∧ v.madness ≤ v.maxMadness ∧ v.maxMadness = 1 ∧
  0 ≤ v.battery ∧ v.battery ≤ 100 ∧ v.drainRate = 2

/-! ## Enemy AI manager (`EnemyManager`, src/unnamed/part_007) -/

/-- The three enemy types of `this.enemyTypes`. -/
inductive EnemyType
  | infected_scientist
  | corrupted_soldier
  | signal_entity
deriving DecidableEq, Repr

/-- Per-type base health. -/
def EnemyType.baseHealth : EnemyType → ℚ
  | .infected_scientist => 80
  | .corrupted_soldier => 120
  | .signal_entity => 60

/-- Per-type detection range. -/
def EnemyType.detectionRange : EnemyType → ℚ
  | .infected_scientist => 15
  | .corrupted_soldier => 20
  | .signal_entity => 25

/-- Per-type attack damage. -/
def EnemyType.attackDamage : EnemyType → ℚ
  | .infected_scientist => 15
  | .corrupted_soldier => 25
  | .signal_entity => 20

/-- The enemy AI states of the per-enemy finite state machine. -/
inductive AIState
  | idle
  | patrol
  | investigate
  | chase
  | attack
  | flee
deriving DecidableEq, Repr

/-- One enemy object, restricted to its simulation state (mesh, health bar
and audio handle are rendering state).  The `generateUUID` identity is
modelled as a number issued by a fresh counter. -/
structure Enemy where
  id : ℕ
  type : EnemyType
  health : ℚ
  maxHealth : ℚ
  isAlive : Bool
  isActive : Bool
  position : Vec3
  state : AIState
  stateTimer : ℚ
  detectionLevel : ℚ
  patrolCenter : Vec3
  investigationPoint : Option Vec3
deriving DecidableEq, Repr

/-- One `(position, volume, type, timestamp)` entry of `this.soundEvents`. -/
structure SoundEvent where
  position : Vec3
  volume : ℚ
  type : String
  timestamp : ℚ
deriving DecidableEq, Repr

/-- The manager's collections: the active list, the inactive pool, the sound
event registry, and the UUID counter. -/
structure EnemyManagerState where
  activeEnemies : List Enemy
  inactiveEnemies : List Enemy
  soundEvents : List SoundEvent
  nextId : ℕ
deriving DecidableEq, Repr

/-- Embeds `EnemyManager.createEnemy(typeName)`: builds a fresh enemy object with
type defaults (`state: 'idle'`, full health, inactive, zeroed vectors).  The
returned object is not inserted into any collection. -/
def EnemyManager.createEnemy (t : EnemyType) (m : EnemyManagerState) :
    Enemy × EnemyManagerState :=
  ({ id := m.nextId, type := t, health := t.baseHealth, maxHealth := t.baseHealth,
     isAlive := true, isActive := false, position := ⟨0, 0, 0⟩, state := AIState.idle,
     stateTimer := 0, detectionLevel := 0, patrolCenter := ⟨0, 0, 0⟩,
     investigationPoint := none },
   { m with nextId := m.nextId + 1 })

/-- A spawn-point argument to `spawnEnemy`.  The spawn points generated by
`generateSpawnPoints` carry a `patrolCenter`; the object literals passed by
`loadSaveData` and `spawnDebugEnemy` do not, hence the `Option`. -/
structure SpawnPoint where
  position : Vec3
  patrolCenter : Option Vec3

/-- Embeds `THREE.Vector3.copy(v)`: reading `v.x` of an `undefined` argument throws
a `TypeError`. -/
def Vec3.copyFrom : Option Vec3 → Except String Vec3
  | none => Except.error "TypeError: Cannot read properties of undefined"
  | some v => Except.ok v

/-- Embeds `Array.prototype.pop`: removes and returns the last element. -/
def popLast (l : List Enemy) : Option (Enemy × List Enemy) :=
  match l.getLast? with
  | none => none
  | some e => some (e, l.dropLast)

/-- Embeds `EnemyManager.spawnEnemy(spawnPoint)`: returns `null` when the inactive
pool is empty; otherwise pops the last pooled enemy, copies position and
patrol center from the spawn point (throwing when the spawn point has no
`patrolCenter`), resets `state` to `'patrol'`, `health` to the type default
and `detectionLevel` to `0`, and appends it to `activeEnemies`. -/
def EnemyManager.spawnEnemy (sp : SpawnPoint) (m : EnemyManagerState) :
    Except String (EnemyManagerState × Option Enemy) :=
  match popLast m.inactiveEnemies with
  | none => Except.ok (m, none)
  | some (e, pool) => do
    let pc ← Vec3.copyFrom sp.patrolCenter
    let e := { e with
               position := sp.position, patrolCenter := pc,
               state := AIState.patrol, isActive := true,
               health := e.type.baseHealth, detectionLevel := 0 }
    Except.ok ({ m with
                 inactiveEnemies := pool,
                 activeEnemies := m.activeEnemies ++ [e] }, some e)

/-- Embeds `EnemyManager.despawnEnemy(enemy)`: no-op on inactive enemies; otherwise
marks the enemy inactive/idle, splices it out of `activeEnemies` (guarded by
`indexOf > -1`) and pushes it onto the inactive pool. -/
def EnemyManager.despawnEnemy (e : Enemy) (m : EnemyManagerState) : EnemyManagerState :=
  if e.isActive = false then m
  else
    let e := { e with isActive := false, state := AIState.idle }
    { m with activeEnemies := m.activeEnemies.eraseP (fun x => x.id == e.id),
             inactiveEnemies := m.inactiveEnemies ++ [e] }

/-- Embeds `this.activeEnemies.forEach(enemy => this.despawnEnemy(enemy))` from
`loadSaveData`: JS `forEach` fixes the iteration count up front but reads the
live, shrinking array at each index, so despawning the element at the current
index shifts the remainder down and skips every other enemy. -/
def EnemyManager.despawnForEach (m : EnemyManagerState) : EnemyManagerState :=
  go m.activeEnemies.length 0 m
where
  /-- The fuel argument is the cached length; the second argument is the running index. -/
  go : ℕ → ℕ → EnemyManagerState → EnemyManagerState
  | 0, _, m => m
  | fuel + 1, k, m =>
    match m.activeEnemies.get? k with
    | some e => go fuel (k + 1) (EnemyManager.despawnEnemy e m)
    | none => go fuel (k + 1) m

/-- One entry of `getSaveData().activeEnemies`: `{id, type, position,
health, state}` (`position.toArray()` is the three coordinates). -/
structure EnemySaveEntry where
  id : ℕ
  type : EnemyType
  position : Vec3
  health : ℚ
  state : AIState
deriving DecidableEq, Repr

/-- Embeds `EnemyManager.getSaveData()`. -/
structure EnemySaveData where
  activeEnemies : List EnemySaveEntry
  enemiesKilled : ℕ
deriving DecidableEq, Repr

/-- Embeds `EnemyManager.getSaveData()`: snapshots id, type, position, health and AI
state of each active enemy (`getEnemiesKilled` is a constant `0`). -/
def EnemyManager.getSaveData (m : EnemyManagerState) : EnemySaveData :=
  { activeEnemies := m.activeEnemies.map (fun e =>
      { id := e.id, type := e.type, position := e.position,
        health := e.health, state := e.state }),
    enemiesKilled := 0 }

/-- One iteration of the restore loop in `EnemyManager.loadSaveData`:
`createEnemy` builds a fresh object, whose position/health/state are set from
the snapshot — but that object is never added to a collection; instead
`spawnEnemy({position: enemy.position, type: enemy.type})` is called, which
pops a *pooled* enemy and receives no `patrolCenter`. -/
def EnemyManager.restoreOne (m : EnemyManagerState) (d : EnemySaveEntry) :
    Except String EnemyManagerState := do
  let (e, m) := EnemyManager.createEnemy d.type m
  let e := { e with position := d.position, health := d.health, state := d.state }
  let (m, _) ← EnemyManager.spawnEnemy { position := e.position, patrolCenter := none } m
  Except.ok m

/-- Embeds `EnemyManager.loadSaveData(saveData)`: despawns the current active
enemies (via the skipping `forEach`), then runs the restore loop; a thrown
`TypeError` aborts the whole restore. -/
def EnemyManager.loadSaveData (sd : EnemySaveData) (m : EnemyManagerState) :
    Except String EnemyManagerState :=
  sd.activeEnemies.foldlM EnemyManager.restoreOne (EnemyManager.despawnForEach m)

/-- Embeds `EnemyManager.enemyTakeDamage(enemy, amount)`: subtracts the amount from
`health` with no clamp (the health-bar reveal and damage sound are
presentation), calls `enemyDie` when the result is `<= 0` (marking the enemy
dead; the pooled despawn happens 2000 ms later via `setTimeout`, outside this
state step) and otherwise forces the pain transition to `'investigate'`. -/
def EnemyManager.enemyTakeDamage (amount : ℚ) (e : Enemy) : Enemy :=
  let e := { e with health := e.health - amount }
  if e.health ≤ 0 then { e with isAlive := false }
  else { e with state := AIState.investigate }

/-- The per-enemy body of `EnemyManager.alertNearbyEnemies(position, range)`:
within `range`, raise `detectionLevel` by `(range - distance)/range * 0.5`
capped at `1`, and force an idle enemy to `'investigate'` targeting the
event position. -/
def EnemyManager.alertEnemy (position : Vec3) (range : ℚ) (e : Enemy) : Enemy :=
  let distance := Vec3.distanceTo e.position position
  if distance < range then
    let dl := min 1 (e.detectionLevel + (range - distance) / range * (1/2))
    let e := { e with detectionLevel := dl }
    if e.state = AIState.idle then
      { e with state := AIState.investigate, investigationPoint := some position }
    else e
  else e

/-- Embeds `EnemyManager.alertNearbyEnemies(position, range)`: applies the alert to
every active enemy. -/
def EnemyManager.alertNearbyEnemies (position : Vec3) (range : ℚ)
    (m : EnemyManagerState) : EnemyManagerState :=
  { m with activeEnemies := m.activeEnemies.map (EnemyManager.alertEnemy position range) }

/-- Embeds `EnemyManager.registerSoundEvent(position, volume, type)` with
`now = performance.now()`: appends the event, trims the registry to 10
entries (`shift()` drops the oldest), then alerts enemies within the
volume-scaled radius `volume * 20`. -/
def EnemyManager.registerSoundEvent (now : ℚ) (position : Vec3) (volume : ℚ)
    (type : String) (m : EnemyManagerState) : EnemyManagerState :=
  let ev : SoundEvent := { position := position, volume := volume, type := type, timestamp := now }
  let events := m.soundEvents ++ [ev]
  let events := if 10 < events.length then events.drop 1 else events
  EnemyManager.alertNearbyEnemies position (volume * 20) { m with soundEvents := events }

/-! ## Theorems -/

/-- C1, counterexample: on a tick where the player is alive, the story is
complete and madness is exactly `1.0`, `checkGameState` selects the
`completion` ending, not the `insanity` ending the claim requires. -/
theorem checkGameState_insanity_not_first :
    1 ≤ (1 : ℚ) ∧
    checkGameState { isDead := false, storyComplete := true, madnessLevel := 1 } =
      some Ending.completion ∧
    some Ending.completion ≠ some Ending.insanity := by decide

/-- C1 (amended): `GameEngine.checkGameState` evaluates the terminal
conditions in the fixed priority order death first, then story/objective
completion, then insanity (madness `>= 1.0`), transitioning on the first
satisfied condition and ignoring the rest of the checks in that tick; in
particular, when madness reaches `1.0` on a tick where a completion
condition is also true, the completion ending is selected. -/
theorem checkGameState_priority_order (s : GameSnapshot) :
    checkGameState s =
      firstSatisfied
        [(s.isDead, Ending.death), (s.storyComplete, Ending.completion),
         (decide (1 ≤ s.madnessLevel), Ending.insanity)] := by
  rcases s with ⟨d, c, m⟩
  cases d <;> cases c <;> by_cases hm : 1 ≤ m <;>
    simp [checkGameState, firstSatisfied, hm]

/-- C2, counterexample: in the per-frame trace of `GameEngine.update` the
enemy AI update precedes the physics step, and the sound-event decay precedes
the enemy AI update — the reverse of the claimed order on both counts. -/
theorem update_order_counterexample :
    List.indexOf Phase.enemyAIUpdate (GameEngine.updatePhaseList true false) <
      List.indexOf Phase.physicsStep (GameEngine.updatePhaseList true false) ∧
    List.indexOf Phase.soundDecay (GameEngine.updatePhaseList true false) <
      List.indexOf Phase.enemyAIUpdate (GameEngine.updatePhaseList true false) := by
  decide

/-- C2 (amended): within every per-frame update that runs (playing and not
paused), the subsystems run in the fixed order player update, then sound
event decay, then enemy AI updates, then enemy spawning, then world update,
then physics step, then story/effects/lighting/post-processing, then the
game-state check; physics is stepped after the enemy AI updates, and sound
events are decayed before AI perception is evaluated for the tick.  When not
playing or paused, no subsystem runs. -/
theorem update_order :
    GameEngine.updatePhaseList true false =
      [Phase.perfMetrics, Phase.playerUpdate, Phase.soundDecay, Phase.enemyAIUpdate,
       Phase.enemySpawning, Phase.worldUpdate, Phase.physicsStep, Phase.storyUpdate,
       Phase.effectsUpdate, Phase.lightingUpdate, Phase.postProcessingUpdate,
       Phase.gameStateCheck] ∧
    GameEngine.updatePhaseList false false = [] ∧
    GameEngine.updatePhaseList false true = [] ∧
    GameEngine.updatePhaseList true true = [] := by decide

/-- C3, counterexample: a `NaN` delta is handed to `world.step` as `NaN`, not
clamped to zero. -/
theorem physics_nan_not_clamped :
    (PhysicsManager.update JSNum.nan).timeSinceLastCalled = JSNum.nan ∧
    JSNum.nan ≠ JSNum.num 0 ∧
    JSNum.isFinite JSNum.nan = false := by decide

/-- C3 (amended): `PhysicsManager.update` forwards every delta — finite or
not — unmodified to the physics world's `step` call (with fixed sub-step
`1/60` and at most `3` sub-steps); no finiteness check or clamping is
performed before the world is advanced. -/
theorem physics_delta_passthrough (d : JSNum) :
    (PhysicsManager.update d).timeSinceLastCalled = d ∧
    (PhysicsManager.update d).fixedTimeStep = 1 / 60 ∧
    (PhysicsManager.update d).maxSubSteps = 3 :=
  ⟨rfl, rfl, rfl⟩

/-- A mid-game enemy as serialized: wounded (50/80) and chasing. -/
def savedScientist : Enemy :=
  { id := 0, type := EnemyType.infected_scientist, health := 50, maxHealth := 80,
    isAlive := true, isActive := true, position := ⟨3, 1, 4⟩, state := AIState.chase,
    stateTimer := 2, detectionLevel := 1/2, patrolCenter := ⟨0, 1, 0⟩,
    investigationPoint := none }

/-- A pooled (inactive) enemy available for `spawnEnemy` to pop. -/
def pooledSoldier : Enemy :=
  { id := 1, type := EnemyType.corrupted_soldier, health := 120, maxHealth := 120,
    isAlive := true, isActive := false, position := ⟨0, 0, 0⟩, state := AIState.idle,
    stateTimer := 0, detectionLevel := 0, patrolCenter := ⟨0, 0, 0⟩,
    investigationPoint := none }

/-- A mid-game manager state: one active enemy, one pooled enemy. -/
def midGameManager : EnemyManagerState :=
  { activeEnemies := [savedScientist], inactiveEnemies := [pooledSoldier],
    soundEvents := [], nextId := 2 }

/-- C4: serializing a mid-game snapshot and restoring it does not round-trip:
the restore loop calls `spawnEnemy` with a spawn-point literal that has no
`patrolCenter`, so `enemy.patrolCenter.copy(undefined)` throws a `TypeError`
and the restore aborts (and even absent the throw, `spawnEnemy` pops a pooled
enemy and resets its health, AI state and detection level to type defaults,
discarding the serialized values the loop had just written onto the
never-activated `createEnemy` object). -/
theorem enemy_save_roundtrip_throws :
    EnemyManager.loadSaveData (EnemyManager.getSaveData midGameManager) midGameManager
      = Except.error "TypeError: Cannot read properties of undefined" := rfl

/-- An enemy with 10 health left. -/
def woundedScientist : Enemy :=
  { id := 3, type := EnemyType.infected_scientist, health := 10, maxHealth := 80,
    isAlive := true, isActive := true, position := ⟨0, 1, 0⟩, state := AIState.chase,
    stateTimer := 0, detectionLevel := 0, patrolCenter := ⟨0, 1, 0⟩,
    investigationPoint := none }

/-- C6, counterexample: applying 25 damage to an enemy with 10 health drives
its health to `-15 < 0`: the write is not clamped. -/
theorem enemyTakeDamage_goes_negative :
    (EnemyManager.enemyTakeDamage 25 woundedScientist).health = -15 ∧
    (EnemyManager.enemyTakeDamage 25 woundedScientist).health < 0 := by
  norm_num [EnemyManager.enemyTakeDamage, woundedScientist]

/-- C6 (amended): `enemyTakeDamage` subtracts the damage amount from the
enemy's health without clamping, so health can become negative; when the
resulting health is `<= 0` the enemy is marked dead (`enemyDie`), and
otherwise it is forced into the `investigate` pain state. -/
theorem enemyTakeDamage_unclamped (e : Enemy) (amount : ℚ) :
    (EnemyManager.enemyTakeDamage amount e).health = e.health - amount ∧
    (EnemyManager.enemyTakeDamage amount e).isAlive =
      (if e.health - amount ≤ 0 then false else e.isAlive) ∧
    (EnemyManager.enemyTakeDamage amount e).state =
      (if e.health - amount ≤ 0 then e.state else AIState.investigate) := by
  by_cases h : e.health - amount ≤ 0 <;> simp [EnemyManager.enemyTakeDamage, h]

/-- An idle signal entity (detection range 25) at the origin row. -/
def idleEntity : Enemy :=
  { id := 5, type := EnemyType.signal_entity, health := 60, maxHealth := 60,
    isAlive := true, isActive := true, position := ⟨0, 1, 0⟩, state := AIState.idle,
    stateTimer := 0, detectionLevel := 0, patrolCenter := ⟨0, 1, 0⟩,
    investigationPoint := none }

/-- Manager holding only the idle entity. -/
def idleEntityManager : EnemyManagerState :=
  { activeEnemies := [idleEntity], inactiveEnemies := [], soundEvents := [], nextId := 6 }

/-- C9, counterexample: a volume-1 sound event at distance 22 is inside the
idle signal entity's detection range (22 < 25) but outside the volume-scaled
alert radius (`1 * 20`), so `registerSoundEvent` leaves the enemy unchanged —
still idle, detection level 0, no investigation point — in the tick the event
is emitted. -/
theorem soundEvent_in_detection_range_ignored :
    Vec3.distSq idleEntity.position ⟨22, 1, 0⟩ <
      idleEntity.type.detectionRange * idleEntity.type.detectionRange ∧
    (EnemyManager.registerSoundEvent 0 ⟨22, 1, 0⟩ 1 "gunshot"
        idleEntityManager).activeEnemies = [idleEntity] := by
  have hsq : Rat.sqrt (484 : ℚ) = 22 := by
    rw [show (484 : ℚ) = 22 * 22 by norm_num, Rat.sqrt_eq]
    norm_num
  constructor
  · norm_num [Vec3.distSq, idleEntity, EnemyType.detectionRange]
  · have hd : Vec3.distanceTo idleEntity.position ⟨22, 1, 0⟩ = 22 := by
      rw [Vec3.distanceTo, jsSqrt, show Vec3.distSq idleEntity.position ⟨22, 1, 0⟩ = 484 by
        norm_num [Vec3.distSq, idleEntity], hsq]
    simp [EnemyManager.registerSoundEvent, EnemyManager.alertNearbyEnemies,
          EnemyManager.alertEnemy, idleEntityManager, hd]
    norm_num

/-- C9 (amended): `registerSoundEvent` alerts, in the same call, every active
enemy within the volume-scaled radius `volume * 20` of the emit position
(not the enemy's own detection range): such an enemy has its detection level
raised by `(range - distance)/range * 0.5` capped at 1 and, if idle,
transitions to `investigate` with the event position as its investigation
point. -/
theorem soundEvent_alert_same_tick (m : EnemyManagerState) (now : ℚ)
    (position : Vec3) (volume : ℚ) (type : String) (e : Enemy) (d : ℚ)
    (hmem : e ∈ m.activeEnemies) (hidle : e.state = AIState.idle)
    (hd0 : 0 ≤ d) (hdist : d * d = Vec3.distSq e.position position)
    (hrange : d < volume * 20) :
    ∃ e' ∈ (EnemyManager.registerSoundEvent now position volume type
        m).activeEnemies,
      e'.id = e.id ∧ e'.state = AIState.investigate ∧
      e'.investigationPoint = some position ∧
      e'.detectionLevel =
        min 1 (e.detectionLevel + (volume * 20 - d) / (volume * 20) * (1/2)) := by
  have hdto : Vec3.distanceTo e.position position = d := by
    rw [Vec3.distanceTo, ← hdist, jsSqrt, Rat.sqrt_eq, abs_of_nonneg hd0]
  refine ⟨EnemyManager.alertEnemy position (volume * 20) e, ?_, ?_, ?_, ?_, ?_⟩
  · simp only [EnemyManager.registerSoundEvent, EnemyManager.alertNearbyEnemies]
    exact List.mem_map_of_mem _ hmem
  · simp [EnemyManager.alertEnemy, hdto, hrange, hidle]
  · simp [EnemyManager.alertEnemy, hdto, hrange, hidle]
  · simp [EnemyManager.alertEnemy, hdto, hrange, hidle]
  · simp [EnemyManager.alertEnemy, hdto, hrange, hidle]

/-- An idle infected scientist at the origin row. -/
def idleScientist : Enemy :=
  { id := 7, type := EnemyType.infected_scientist, health := 80, maxHealth := 80,
    isAlive := true, isActive := true, position := ⟨0, 1, 0⟩, state := AIState.idle,
    stateTimer := 0, detectionLevel := 0, patrolCenter := ⟨0, 1, 0⟩,
    investigationPoint := none }

/-- Manager holding only the idle scientist. -/
def idleScientistManager : EnemyManagerState :=
  { activeEnemies := [idleScientist], inactiveEnemies := [], soundEvents := [],
    nextId := 8 }

/-- C9 witness: a volume-1 gunshot at distance 10 (within the `1 * 20` alert
radius) flips the idle scientist to `investigate` at the emit position in the
same call. -/
theorem soundEvent_alert_same_tick_witness :
    ∃ e' ∈ (EnemyManager.registerSoundEvent 0 ⟨6, 1, 8⟩ 1 "gunshot"
        idleScientistManager).activeEnemies,
      e'.id = idleScientist.id ∧ e'.state = AIState.investigate ∧
      e'.investigationPoint = some ⟨6, 1, 8⟩ ∧
      e'.detectionLevel =
        min 1 (idleScientist.detectionLevel + (1 * 20 - 10) / (1 * 20) * (1/2)) :=
  soundEvent_alert_same_tick idleScientistManager 0 ⟨6, 1, 8⟩ 1 "gunshot"
    idleScientist 10 (List.mem_singleton.mpr rfl) rfl (by norm_num)
    (by norm_num [Vec3.distSq, idleScientist]) (by norm_num)

/-- C7: on a tick where the fire input is held, the cooldown has elapsed and
the clip is empty, `handleShooting` changes nothing: the reserve
(`weapon.ammo`) is not decremented, the clip is not changed and the cooldown
(`weapon.lastFired`) is not reset — the empty-click feedback is a pure sound
placeholder. -/
theorem emptyClip_fire_costfree (now : ℚ) (p : PlayerS)
    (hshoot : p.keys.shoot = true)
    (hcool : p.weapon.fireRate ≤ now - p.weapon.lastFired)
    (hclip : p.weapon.currentClip = 0) :
    Player.handleShooting now p = p := by
  unfold Player.handleShooting
  split_ifs with h1 h2 h3 <;> try rfl
  rw [hclip] at h3
  exact absurd h3 (lt_irrefl 0)

/-- A player holding fire with an empty clip, cooldown long since elapsed. -/
def emptyClipPlayer : PlayerS :=
  { initialPlayer with
    keys := { Keys.none with shoot := true },
    weapon := { initialPlayer.weapon with currentClip := 0, ammo := 12, lastFired := 0 } }

/-- C7 witness: the empty-click tick at `now = 1` leaves the player intact. -/
theorem emptyClip_fire_costfree_witness :
    Player.handleShooting 1 emptyClipPlayer = emptyClipPlayer :=
  emptyClip_fire_costfree 1 emptyClipPlayer rfl (by norm_num [emptyClipPlayer, initialPlayer]) rfl

/-- C8: for a reload begun (at time `t0`) with a non-full clip and reserve
ammo available, the reload only sets the flag and timer; pressing reload
while the reload is in progress (`t1`, before the timer elapses) is a no-op —
it neither restarts the timer nor moves rounds; and once the timer elapses
(`t2`), exactly `min(clipSize - currentClip, ammo)` rounds move from reserve
to clip, exactly once, clearing the flag. -/
theorem reload_moves_min_once (p : PlayerS) (t0 t1 t2 : ℚ)
    (hrel : p.weapon.isReloading = false) (hkey : p.keys.reload = true)
    (hclip : p.weapon.currentClip < p.weapon.clipSize) (hammo : 0 < p.weapon.ammo)
    (hearly : t1 - t0 < p.weapon.reloadTime) (hdone : p.weapon.reloadTime ≤ t2 - t0) :
    (Player.handleReloading t0 p).weapon.isReloading = true ∧
    (Player.handleReloading t0 p).weapon.reloadStartTime = t0 ∧
    (Player.handleReloading t0 p).weapon.currentClip = p.weapon.currentClip ∧
    (Player.handleReloading t0 p).weapon.ammo = p.weapon.ammo ∧
    Player.handleReloading t1 (Player.handleReloading t0 p) =
      Player.handleReloading t0 p ∧
    (Player.handleReloading t2 (Player.handleReloading t0 p)).weapon.currentClip =
      p.weapon.currentClip + min (p.weapon.clipSize - p.weapon.currentClip) p.weapon.ammo ∧
    (Player.handleReloading t2 (Player.handleReloading t0 p)).weapon.ammo =
      p.weapon.ammo - min (p.weapon.clipSize - p.weapon.currentClip) p.weapon.ammo ∧
    (Player.handleReloading t2 (Player.handleReloading t0 p)).weapon.isReloading = false := by
  have h0 : Player.handleReloading t0 p = Player.startReloading t0 p := by
    simp [Player.handleReloading, hrel, hkey, hclip, hammo]
  rw [h0]
  have hnot : ¬ p.weapon.reloadTime ≤ t1 - t0 := not_le.mpr hearly
  refine ⟨rfl, rfl, rfl, rfl, ?_, ?_, ?_, ?_⟩ <;>
    simp [Player.handleReloading, Player.startReloading, Player.finishReloading,
          hnot, hdone]

/-- A player mid-game: clip at 3 of 10, 30 reserve rounds, reload pressed. -/
def reloadingPlayer : PlayerS :=
  { initialPlayer with
    keys := { Keys.none with reload := true },
    weapon := { initialPlayer.weapon with currentClip := 3 } }

/-- C8 witness: reload pressed at `t = 0`, re-pressed at `t = 1` (no-op),
timer elapses at `t = 2` moving `min(10 - 3, 30) = 7` rounds once. -/
theorem reload_moves_min_once_witness :
    (Player.handleReloading 0 reloadingPlayer).weapon.isReloading = true ∧
    (Player.handleReloading 0 reloadingPlayer).weapon.reloadStartTime = 0 ∧
    (Player.handleReloading 0 reloadingPlayer).weapon.currentClip =
      reloadingPlayer.weapon.currentClip ∧
    (Player.handleReloading 0 reloadingPlayer).weapon.ammo =
      reloadingPlayer.weapon.ammo ∧
    Player.handleReloading 1 (Player.handleReloading 0 reloadingPlayer) =
      Player.handleReloading 0 reloadingPlayer ∧
    (Player.handleReloading 2 (Player.handleReloading 0
        reloadingPlayer)).weapon.currentClip =
      reloadingPlayer.weapon.currentClip +
        min (reloadingPlayer.weapon.clipSize - reloadingPlayer.weapon.currentClip)
          reloadingPlayer.weapon.ammo ∧
    (Player.handleReloading 2 (Player.handleReloading 0
        reloadingPlayer)).weapon.ammo =
      reloadingPlayer.weapon.ammo -
        min (reloadingPlayer.weapon.clipSize - reloadingPlayer.weapon.currentClip)
          reloadingPlayer.weapon.ammo ∧
    (Player.handleReloading 2 (Player.handleReloading 0
        reloadingPlayer)).weapon.isReloading = false :=
  reload_moves_min_once reloadingPlayer 0 1 2 rfl rfl (by decide) (by decide)
    (by norm_num [reloadingPlayer, initialPlayer])
    (by norm_num [reloadingPlayer, initialPlayer])

/-- C10: on a tick where both sprint and crouch are held, the crouch branch
of `handleMovement` is evaluated after the sprint branch, so the movement
speed cap comes out as the crouch speed and `isCrouching` is set. -/
theorem crouch_overrides_sprint (deltaTime : ℚ) (p : PlayerS)
    (hs : p.keys.sprint = true) (hc : p.keys.crouch = true) :
    (Player.handleMovement deltaTime p).currentSpeed = p.crouchSpeed ∧
    (Player.handleMovement deltaTime p).isCrouching = true := by
  by_cases hg : p.isGrounded <;> by_cases hj : p.keys.jump <;>
    by_cases hcj : p.canJump <;>
      simp [Player.handleMovement, hs, hc, hg, hj, hcj]

/-- A player holding sprint and crouch together. -/
def sprintCrouchPlayer : PlayerS :=
  { initialPlayer with keys := { Keys.none with sprint := true, crouch := true } }

/-- C10 witness: with both keys held, the speed cap is the crouch speed
(`2.5`), not the sprint speed. -/
theorem crouch_overrides_sprint_witness :
    (Player.handleMovement 1 sprintCrouchPlayer).currentSpeed =
      sprintCrouchPlayer.crouchSpeed ∧
    (Player.handleMovement 1 sprintCrouchPlayer).isCrouching = true :=
  crouch_overrides_sprint 1 sprintCrouchPlayer rfl rfl

/-! ### Meter-level facts feeding the per-tick invariant (C5) -/

theorem handleMovement_meters (deltaTime : ℚ) (p : PlayerS) :
    (Player.handleMovement deltaTime p).meters = p.meters := by
  simp only [Player.handleMovement]
  split_ifs <;> rfl

theorem handleFlashlight_meters (p : PlayerS) :
    (Player.handleFlashlight p).meters = p.meters := by
  simp only [Player.handleFlashlight]
  split_ifs <;> rfl

theorem handleInteractions_meters (deltaTime : ℚ) (p : PlayerS) :
    (Player.handleInteractions deltaTime p).meters = p.meters := by
  simp only [Player.handleInteractions]
  split_ifs <;> rfl

theorem updatePhysics_meters (deltaTime : ℚ) (p : PlayerS) :
    (Player.updatePhysics deltaTime p).meters = p.meters := by
  simp only [Player.updatePhysics]
  split_ifs <;> rfl

theorem updateAudioFeedback_meters (deltaTime : ℚ) (p : PlayerS) :
    (Player.updateAudioFeedback deltaTime p).meters = p.meters := by
  simp only [Player.updateAudioFeedback]
  split_ifs <;> rfl

theorem clampToWorldBounds_meters (p : PlayerS) :
    (Player.clampToWorldBounds p).meters = p.meters := rfl

theorem handleShooting_meters (now : ℚ) (p : PlayerS) :
    (Player.handleShooting now p).meters = p.meters ∨
    ((Player.handleShooting now p).meters = { p.meters with clip := p.meters.clip - 1 } ∧
      0 < p.meters.clip) := by
  simp only [Player.handleShooting]
  split_ifs with h1 h2 h3
  · exact Or.inl rfl
  · exact Or.inr ⟨rfl, h3⟩
  · exact Or.inl rfl
  · exact Or.inl rfl

theorem handleReloading_meters (now : ℚ) (p : PlayerS) :
    (Player.handleReloading now p).meters = p.meters ∨
    (Player.handleReloading now p).meters =
      { p.meters with
        clip := p.meters.clip + min (p.meters.clipSize - p.meters.clip) p.meters.ammo,
        ammo := p.meters.ammo - min (p.meters.clipSize - p.meters.clip) p.meters.ammo } := by
  simp only [Player.handleReloading, Player.startReloading, Player.finishReloading]
  split_ifs
  · exact Or.inr rfl
  · exact Or.inl rfl
  · exact Or.inl rfl
  · exact Or.inl rfl

theorem updateMadness_meters (deltaTime : ℚ) (p : PlayerS) :
    ∃ m : ℚ, (Player.updateMadness deltaTime p).meters =
      { p.meters with madness := max 0 (min p.meters.maxMadness m) } :=
  ⟨_, rfl⟩

theorem updateBattery_meters (deltaTime : ℚ) (p : PlayerS) :
    (Player.updateBattery deltaTime p).meters = p.meters ∨
    (Player.updateBattery deltaTime p).meters =
      { p.meters with
        battery := max 0 (p.meters.battery - p.meters.drainRate * deltaTime) } := by
  simp only [Player.updateBattery]
  split_ifs
  · exact Or.inr rfl
  · exact Or.inl rfl

theorem takeDamage_meters (amount : ℚ) (p : PlayerS) :
    (Player.takeDamage amount p).meters =
      { p.meters with
        health := max 0 (p.meters.health - amount),
        madness := min p.meters.maxMadness (p.meters.madness + 1/10) } := by
  simp only [Player.takeDamage]
  split_ifs <;> rfl

theorem heal_meters (amount : ℚ) (p : PlayerS) :
    (Player.heal amount p).meters =
      { p.meters with health := min p.meters.maxHealth (p.meters.health + amount) } := rfl

theorem metersInv_clipDec (v : Meters) (h : MetersInv v) (hpos : 0 < v.clip) :
    MetersInv { v with clip := v.clip - 1 } := by
  obtain ⟨a1, a2, a3, a4, a5, a6, a7, a8, a9, a10, a11, a12⟩ := h
  refine ⟨?_, ?_, a3, a4, a5, a6, a7, a8, a9, a10, a11, a12⟩ <;> dsimp only <;> omega

theorem metersInv_reload (v : Meters) (h : MetersInv v) :
    MetersInv
      { v with
        clip := v.clip + min (v.clipSize - v.clip) v.ammo,
        ammo := v.ammo - min (v.clipSize - v.clip) v.ammo } := by
  obtain ⟨a1, a2, a3, a4, a5, a6, a7, a8, a9, a10, a11, a12⟩ := h
  refine ⟨?_, ?_, ?_, a4, a5, a6, a7, a8, a9, a10, a11, a12⟩ <;> dsimp only <;> omega

theorem metersInv_madnessClamp (v : Meters) (m : ℚ) (h : MetersInv v) :
    MetersInv { v with madness := max 0 (min v.maxMadness m) } := by
  obtain ⟨a1, a2, a3, a4, a5, a6, a7, a8, a9, a10, a11, a12⟩ := h
  refine ⟨a1, a2, a3, a4, a5, a6, le_max_left 0 _, ?_, a9, a10, a11, a12⟩
  exact max_le (by rw [a9]; norm_num) (min_le_left _ _)

theorem metersInv_batteryDrain (v : Meters) (deltaTime : ℚ) (hdt : 0 ≤ deltaTime)
    (h : MetersInv v) :
    MetersInv { v with battery := max 0 (v.battery - v.drainRate * deltaTime) } := by
  obtain ⟨a1, a2, a3, a4, a5, a6, a7, a8, a9, a10, a11, a12⟩ := h
  refine ⟨a1, a2, a3, a4, a5, a6, a7, a8, a9, le_max_left 0 _, ?_, a12⟩
  refine max_le (by norm_num) ?_
  have : 0 ≤ v.drainRate * deltaTime := by rw [a12]; positivity
  linarith

theorem metersInv_damage (v : Meters) (amount : ℚ) (ha : 0 ≤ amount)
    (h : MetersInv v) :
    MetersInv
      { v with
        health := max 0 (v.health - amount),
        madness := min v.maxMadness (v.madness + 1/10) } := by
  obtain ⟨a1, a2, a3, a4, a5, a6, a7, a8, a9, a10, a11, a12⟩ := h
  refine ⟨a1, a2, a3, le_max_left 0 _, ?_, a6, ?_, min_le_left _ _, a9, a10, a11, a12⟩
  · refine max_le (by rw [a6]; norm_num) ?_
    linarith
  · refine le_min ?_ (by linarith)
    rw [a9]
    norm_num

theorem metersInv_heal (v : Meters) (amount : ℚ) (ha : 0 ≤ amount)
    (h : MetersInv v) :
    MetersInv { v with health := min v.maxHealth (v.health + amount) } := by
  obtain ⟨a1, a2, a3, a4, a5, a6, a7, a8, a9, a10, a11, a12⟩ := h
  refine ⟨a1, a2, a3, ?_, min_le_left _ _, a6, a7, a8, a9, a10, a11, a12⟩
  refine le_min (by rw [a6]; norm_num) (by linarith)

theorem handleShooting_inv (now : ℚ) (p : PlayerS) (h : MetersInv p.meters) :
    MetersInv (Player.handleShooting now p).meters := by
  rcases handleShooting_meters now p with he | ⟨he, hpos⟩
  · rw [he]; exact h
  · rw [he]; exact metersInv_clipDec _ h hpos

theorem handleReloading_inv (now : ℚ) (p : PlayerS) (h : MetersInv p.meters) :
    MetersInv (Player.handleReloading now p).meters := by
  rcases handleReloading_meters now p with he | he
  · rw [he]; exact h
  · rw [he]; exact metersInv_reload _ h

theorem updateMadness_inv (deltaTime : ℚ) (p : PlayerS) (h : MetersInv p.meters) :
    MetersInv (Player.updateMadness deltaTime p).meters := by
  obtain ⟨m, he⟩ := updateMadness_meters deltaTime p
  rw [he]
  exact metersInv_madnessClamp _ m h

theorem updateBattery_inv (deltaTime : ℚ) (p : PlayerS) (hdt : 0 ≤ deltaTime)
    (h : MetersInv p.meters) :
    MetersInv (Player.updateBattery deltaTime p).meters := by
  rcases updateBattery_meters deltaTime p with he | he
  · rw [he]; exact h
  · rw [he]; exact metersInv_batteryDrain _ deltaTime hdt h

theorem update_inv (now deltaTime : ℚ) (p : PlayerS) (hdt : 0 ≤ deltaTime)
    (h : MetersInv p.meters) :
    MetersInv (Player.update now deltaTime p).meters := by
  simp only [Player.update]
  split_ifs with hdead
  · exact h
  · rw [clampToWorldBounds_meters, updateAudioFeedback_meters, updatePhysics_meters]
    apply updateBattery_inv deltaTime _ hdt
    apply updateMadness_inv
    rw [handleInteractions_meters, handleFlashlight_meters]
    apply handleReloading_inv
    apply handleShooting_inv
    rw [handleMovement_meters]
    exact h

theorem step_inv (p : PlayerS) (ev : PlayerEvent) (h : MetersInv p.meters)
    (hv : ev.valid) : MetersInv (Player.step p ev).meters := by
  cases ev with
  | tick now deltaTime keys => exact update_inv now deltaTime _ hv h
  | damage amount => rw [Player.step, takeDamage_meters]; exact metersInv_damage _ amount hv h
  | heal amount => rw [Player.step, heal_meters]; exact metersInv_heal _ amount hv h

theorem foldl_inv (events : List PlayerEvent) :
    ∀ p : PlayerS, MetersInv p.meters → (∀ ev ∈ events, ev.valid) →
      MetersInv ((events.foldl Player.step p).meters) := by
  induction events with
  | nil => exact fun p h _ => h
  | cons ev rest ih =>
    intro p h hv
    exact ih _ (step_inv p ev h (hv ev (List.mem_cons_self _ _)))
      (fun e he => hv e (List.mem_cons_of_mem _ he))

theorem initialPlayer_inv : MetersInv initialPlayer.meters := by
  norm_num [MetersInv, PlayerS.meters, initialPlayer]

/-- C5: along every sequence of simulation ticks (with the nonnegative frame
deltas the loop produces) and combat events (nonnegative damage/heal
amounts), starting from the constructor state, the player invariants hold:
`currentClip <= clipSize`, `0 <= health <= maxHealth`, `0 <= madness <= 1`
and `0 <= flashlightBattery <= 100`. -/
theorem player_meter_invariants (events : List PlayerEvent)
    (h : ∀ ev ∈ events, PlayerEvent.valid ev) : PlayerInv (Player.run events) := by
  obtain ⟨a1, a2, a3, a4, a5, a6, a7, a8, a9, a10, a11, a12⟩ :=
    foldl_inv events initialPlayer initialPlayer_inv h
  exact ⟨a2, a4, a5, a7, a9 ▸ a8, a10, a11⟩

/-- C5 witness: a shooting sprint tick followed by a 25-damage hit and a
10-point heal keeps every meter in range. -/
theorem player_meter_invariants_witness :
    PlayerInv (Player.run
      [PlayerEvent.tick 0 1 { Keys.none with shoot := true, sprint := true },
       PlayerEvent.damage 25, PlayerEvent.heal 10]) :=
  player_meter_invariants _ (by decide)

end TheSignal
